import Mathlib

/-!
Shallow embedding of src/normalobjects_langchain.py.

The file embeds the tool-usage tracking component (class ToolUsageTracker,
lines 105-123 of the source), the module-level tool registry (line 72), and
the three tool bodies the claims mention: check_hawkins_records (lines 30-42),
cast_interdimensional_spell (lines 44-56) and gather_party_wisdom
(lines 58-70).

Modelling conventions:
- A Python dict with string keys is an insertion-ordered association list
  (CPython dicts preserve insertion order); the registry's tool names are
  pairwise distinct, so theorems that quantify over an arbitrary registry
  carry a Nodup hypothesis where faithfulness to dict semantics needs it.
- Python str.lower is modelled on the ASCII range, which is where this
  program's keyword keys and tool names live.
- random.choice / random.sample receive their randomness explicitly: a call
  random.sample(pop, k) returns the first k elements of a caller-supplied
  permutation of pop, which is exactly the set of outcomes the Python call
  can produce.
- A tool body that Python would abort with an uncaught exception (the
  unguarded dict indexing in cast_interdimensional_spell) is embedded with
  Except, the error value naming the Python exception class.
-/

namespace NormalObjects

/-- Names of the four registered tools in registration order: the
module-level list `tools = [consult_demogorgon, check_hawkins_records,
cast_interdimensional_spell, gather_party_wisdom]` (source line 72),
keyed by each tool's function name. -/
def realToolNames : List String :=
  ["consult_demogorgon", "check_hawkins_records",
   "cast_interdimensional_spell", "gather_party_wisdom"]

/-- A Python dict from tool name to invocation count, as an
insertion-ordered association list. -/
abbrev CountMap := List (String × Nat)

/-- sum(self.usage_count.values()) (source line 119). -/
def sumValues (m : CountMap) : Nat := (m.map Prod.snd).sum

/-- self.usage_count[tool_name] += 1 (source line 114): dict item
assignment on an existing key updates the entry in place and preserves
insertion order. -/
def incr : CountMap → String → CountMap
  | [], _ => []
  | (k, v) :: rest, name =>
      if k == name then (k, v + 1) :: rest else (k, v) :: incr rest name

/-- State of class ToolUsageTracker (source lines 105-123): the dict
`usage_count` and the list `tool_sequences`. -/
structure ToolUsageTracker where
  usage_count : CountMap
  tool_sequences : List String
  deriving DecidableEq, Repr

/-- ToolUsageTracker.__init__ (source lines 107-109):
`self.usage_count = {tool.name: 0 for tool in tools}` (one zero entry per
registered tool name, in registration order; the registered names are
pairwise distinct) and `self.tool_sequences = []`. The registry is the
parameter `toolNames`; the script instantiates it with `realToolNames`. -/
def ToolUsageTracker.init (toolNames : List String) : ToolUsageTracker :=
  ⟨toolNames.map (fun n => (n, 0)), []⟩

/-- serialized.get("name", "unknown") (source line 112): the value of key
"name" in the serialized payload, or the sentinel "unknown" when the key
is absent. -/
def resolvedName (serialized : List (String × String)) : String :=
  (serialized.lookup "name").getD "unknown"

/-- ToolUsageTracker.on_tool_start (source lines 111-115): resolve the
tool name from the payload; if it is a key of usage_count, increment that
count and append the name to tool_sequences; otherwise do nothing. The
function is total: no path raises. -/
def onToolStart (tr : ToolUsageTracker) (serialized : List (String × String)) :
    ToolUsageTracker :=
  let tool_name := resolvedName serialized
  if (tr.usage_count.lookup tool_name).isSome then
    ⟨incr tr.usage_count tool_name, tr.tool_sequences ++ [tool_name]⟩
  else tr

/-- Python max(items, key=lambda x: x[1]) (source line 121): scans left to
right keeping the current best, replacing it only when a later item's value
is strictly greater, so the result is the first item attaining the maximum
value; raises on an empty iterable, which line 121 guards with
`if self.usage_count else None`, modelled by the none branch. -/
def pyMaxByVal : CountMap → Option (String × Nat)
  | [] => none
  | x :: xs => some (xs.foldl (fun best y => if best.2 < y.2 then y else best) x)

/-- The dict literal returned by get_statistics (source lines 118-123),
with the two mutable entries (tool_counts, tool_sequences) modelled by
reference: the source stores `self.usage_count` and `self.tool_sequences`
themselves in the returned dict, calling no copy, so those entries are
references to the tracker's own mutable objects, while total_tool_calls
and most_used are values computed at call time. -/
inductive SnapField (α : Type) where
  | trackerRef : SnapField α
  | copied : α → SnapField α
  deriving DecidableEq, Repr

/-- Reading a snapshot field when the tracker currently holds `cur`: a
reference field shows the tracker's current object, a copied field shows
the stored value. -/
def SnapField.read : SnapField α → α → α
  | .trackerRef, cur => cur
  | .copied v, _ => v

/-- The snapshot dict returned by get_statistics (source lines 118-123). -/
structure Statistics where
  total_tool_calls : Nat
  tool_counts : SnapField CountMap
  most_used : Option String
  tool_sequences : SnapField (List String)
  deriving DecidableEq, Repr

/-- ToolUsageTracker.get_statistics (source lines 117-123). The entries
"tool_counts" and "tool_sequences" hold `self.usage_count` and
`self.tool_sequences` themselves (no copy in the source), recorded as
trackerRef. -/
def get_statistics (tr : ToolUsageTracker) : Statistics :=
  ⟨sumValues tr.usage_count, SnapField.trackerRef,
   (pyMaxByVal tr.usage_count).map Prod.fst, SnapField.trackerRef⟩

/-- The value the snapshot's "tool_counts" entry shows when the tracker
currently holds state `cur`. -/
def Statistics.countsRead (s : Statistics) (cur : ToolUsageTracker) : CountMap :=
  s.tool_counts.read cur.usage_count

/-- The value the snapshot's "tool_sequences" entry shows when the tracker
currently holds state `cur`. -/
def Statistics.seqRead (s : Statistics) (cur : ToolUsageTracker) : List String :=
  s.tool_sequences.read cur.tool_sequences

/-- Folding a stream of on_tool_start events over a freshly constructed
tracker: the whole observable lifecycle of the tracker in the script. -/
def runEvents (toolNames : List String) (events : List (List (String × String))) :
    ToolUsageTracker :=
  events.foldl onToolStart (ToolUsageTracker.init toolNames)

/-- A tool-start payload carrying just the serialized tool name, the only
key on_tool_start reads. -/
def ev (name : String) : List (String × String) := [("name", name)]

/-! Tool bodies. -/

/-- Python str.lower on one character, over the ASCII range where this
program's keyword keys and inputs of interest live. -/
def pyLowerChar (c : Char) : Char :=
  if 65 ≤ c.toNat ∧ c.toNat ≤ 90 then Char.ofNat (c.toNat + 32) else c

/-- query.lower() (source lines 40 and 68). -/
def pyLower (s : String) : String := ⟨s.data.map pyLowerChar⟩

/-- Python substring containment `needle in hay` on the underlying
character lists: true iff needle is a prefix of some suffix of hay. -/
def strInAux (needle : List Char) : List Char → Bool
  | [] => needle.isEmpty
  | c :: rest => needle.isPrefixOf (c :: rest) || strInAux needle rest

/-- Python `sub in s` for strings: substring containment. -/
def pyIn (sub s : String) : Bool := strInAux sub.data s.data

/-- The for-loop over a dict shared by check_hawkins_records (lines 39-41)
and gather_party_wisdom (lines 67-69): return the value of the first key,
in insertion order, that is a substring of the lowered query; none when no
key matches and the loop falls through. -/
def pyLoopFirst : List (String × String) → String → Option String
  | [], _ => none
  | (k, v) :: rest, q => if pyIn k q then some v else pyLoopFirst rest q

/-- The records dict of check_hawkins_records (source lines 33-38). -/
def hawkinsRecords : List (String × String) :=
  [("portal", "Records show portals have opened on various dates with no clear pattern."),
   ("monsters", "Historical records indicate creatures from the Upside Down behave differently based on environmental factors."),
   ("psychics", "Records show that psychic abilities vary greatly."),
   ("electricity", "Hawkins has a history of electrical anomalies.")]

/-- The fallback f-string of check_hawkins_records (source line 42),
which interpolates the raw query. -/
def hawkinsFallback (query : String) : String :=
  "Records don\x27t contain specific information about \x27" ++ query ++
  "\x27, but many unexplained events have occurred in Hawkins."

/-- check_hawkins_records (source lines 30-42). -/
def check_hawkins_records (query : String) : String :=
  (pyLoopFirst hawkinsRecords (pyLower query)).getD (hawkinsFallback query)

/-- The party_responses dict of gather_party_wisdom (source lines 61-66). -/
def partyResponses : List (String × String) :=
  [("portal", "Mike: \x27Portals are unpredictable!\x27 Dustin: \x27They follow the Mind Flayer\x27s activity.\x27"),
   ("monsters", "Lucas: \x27Demogorgons are territorial.\x27 Will: \x27They can sense fear and strong emotions.\x27"),
   ("psychics", "Mike: \x27El\x27s powers are connected to her emotional state.\x27 Dustin: \x27Limited by her energy.\x27"),
   ("electricity", "Lucas: \x27The Upside Down interferes with electrical systems.\x27 Dustin: \x27It\x27s like a feedback loop.\x27")]

/-- The fallback string of gather_party_wisdom (source line 70): a fixed
literal that does not interpolate the question. -/
def partyFallback : String :=
  "The party huddles together. Mike: \x27This is a tough one.\x27 Dustin: \x27We need more information.\x27"

/-- gather_party_wisdom (source lines 58-70). -/
def gather_party_wisdom (question : String) : String :=
  (pyLoopFirst partyResponses (pyLower question)).getD partyFallback

/-- The dict literal indexed on source line 48:
creativity_multiplier = {"low": 1, "medium": 2, "high": 3}[creativity_level]. -/
def creativityTable : List (String × Nat) :=
  [("low", 1), ("medium", 2), ("high", 3)]

/-- The first f-string of the spells list (source line 50). -/
def spellA (problem : String) : String :=
  "Try chanting \x27Becma Becma Becma\x27 three times while holding a Walkman. This might recalibrate the interdimensional frequencies related to: " ++ problem

/-- The second f-string of the spells list (source line 51). -/
def spellB (problem : String) : String :=
  "Create a salt circle and place a compass in the center. The magnetic anomalies might help stabilize: " ++ problem

/-- The third f-string of the spells list (source line 52). -/
def spellC (problem : String) : String :=
  "Play \x27Running Up That Hill\x27 backwards at the exact location of the issue. The temporal resonance could fix: " ++ problem

/-- The fourth f-string of the spells list (source line 53). -/
def spellD (problem : String) : String :=
  "Gather three items: a lighter, a compass, and something personal. Arrange them in a triangle while thinking about: " ++ problem ++ "."

/-- The spells list of cast_interdimensional_spell (source lines 49-54),
four f-strings interpolating the problem. -/
def spells (problem : String) : List String :=
  [spellA problem, spellB problem, spellC problem, spellD problem]

/-- random.sample(pop, k) (source line 55) returns k pairwise-distinct
positions of pop in random order: modelled as the first k elements of
perm, a caller-supplied permutation of pop standing for the random
source; every outcome random.sample can produce has this form. -/
def randomSample (perm : List α) (k : Nat) : List α := perm.take k

/-- The list random.sample selects on source line 55:
random.sample(spells, min(creativity_multiplier, len(spells))); none when
the dict indexing on line 48 raises KeyError first. -/
def castSelected (problem creativity_level : String) (perm : List String) :
    Option (List String) :=
  (creativityTable.lookup creativity_level).map
    (fun mult => randomSample perm (min mult (spells problem).length))

/-- cast_interdimensional_spell (source lines 44-56). The unguarded dict
indexing on line 48 raises KeyError for a creativity_level outside the
table; otherwise the sampled spells are joined with a newline. -/
def cast_interdimensional_spell (problem creativity_level : String)
    (perm : List String) : Except String String :=
  match creativityTable.lookup creativity_level with
  | none => Except.error ("KeyError: " ++ creativity_level)
  | some mult =>
      Except.ok (String.intercalate "\n"
        (randomSample perm (min mult (spells problem).length)))

/-! Helper lemmas about the tracker. -/

theorem lookup_isSome_iff (m : CountMap) (k : String) :
    (m.lookup k).isSome = true ↔ k ∈ m.map Prod.fst := by
  induction m with
  | nil => simp [List.lookup]
  | cons p rest ih =>
    obtain ⟨a, v⟩ := p
    cases h : (k == a) with
    | true =>
      simp only [beq_iff_eq] at h
      simp [List.lookup, h]
    | false =>
      have h2 : k ≠ a := by simpa [beq_iff_eq] using h
      simp [List.lookup, h, ih, h2]

theorem incr_keys (m : CountMap) (name : String) :
    (incr m name).map Prod.fst = m.map Prod.fst := by
  induction m with
  | nil => simp [incr]
  | cons p rest ih =>
    obtain ⟨a, v⟩ := p
    cases h : (a == name) with
    | true => simp [incr, h]
    | false => simp [incr, h, ih]

theorem sumValues_incr (m : CountMap) (name : String)
    (hmem : (m.lookup name).isSome = true) :
    sumValues (incr m name) = sumValues m + 1 := by
  induction m with
  | nil => simp [List.lookup] at hmem
  | cons p rest ih =>
    obtain ⟨a, v⟩ := p
    cases h : (a == name) with
    | true =>
      simp [incr, h, sumValues]
      omega
    | false =>
      have hne : a ≠ name := by simpa [beq_iff_eq] using h
      have h2 : (name == a) = false := by
        simpa [beq_iff_eq] using (Ne.symm hne)
      rw [List.lookup] at hmem
      rw [h2] at hmem
      have := ih hmem
      simp [incr, h, sumValues] at this ⊢
      omega

theorem lookup_incr_self (m : CountMap) (name : String) :
    (incr m name).lookup name = (m.lookup name).map (· + 1) := by
  induction m with
  | nil => simp [incr, List.lookup]
  | cons p rest ih =>
    obtain ⟨a, v⟩ := p
    cases h : (a == name) with
    | true =>
      have h2 : (name == a) = true := by
        simp only [beq_iff_eq] at h ⊢
        exact h.symm
      simp [incr, h, List.lookup, h2]
    | false =>
      have hne : a ≠ name := by simpa [beq_iff_eq] using h
      have h2 : (name == a) = false := by
        simpa [beq_iff_eq] using (Ne.symm hne)
      simp [incr, h, List.lookup, h2, ih]

theorem lookup_incr_ne (m : CountMap) (name k : String) (hne : k ≠ name) :
    (incr m name).lookup k = m.lookup k := by
  induction m with
  | nil => simp [incr]
  | cons p rest ih =>
    obtain ⟨a, v⟩ := p
    have hk : (k == name) = false := by simpa [beq_iff_eq] using hne
    cases h : (a == name) with
    | true =>
      have h2 : (k == a) = false := by
        simp only [beq_iff_eq] at h
        simpa [beq_iff_eq, h] using hne
      simp [incr, h, List.lookup, h2]
    | false =>
      cases h2 : (k == a) with
      | true => simp [incr, h, List.lookup, h2]
      | false => simp [incr, h, List.lookup, h2, ih]

theorem onToolStart_accepted (tr : ToolUsageTracker)
    (serialized : List (String × String))
    (h : (tr.usage_count.lookup (resolvedName serialized)).isSome = true) :
    onToolStart tr serialized =
      ⟨incr tr.usage_count (resolvedName serialized),
       tr.tool_sequences ++ [resolvedName serialized]⟩ := by
  simp [onToolStart, h]

theorem onToolStart_rejected (tr : ToolUsageTracker)
    (serialized : List (String × String))
    (h : (tr.usage_count.lookup (resolvedName serialized)).isSome = false) :
    onToolStart tr serialized = tr := by
  simp [onToolStart, h]

theorem onToolStart_keys (tr : ToolUsageTracker)
    (serialized : List (String × String)) :
    (onToolStart tr serialized).usage_count.map Prod.fst =
      tr.usage_count.map Prod.fst := by
  cases h : (tr.usage_count.lookup (resolvedName serialized)).isSome with
  | true => rw [onToolStart_accepted tr serialized h]; exact incr_keys _ _
  | false => rw [onToolStart_rejected tr serialized h]

theorem onToolStart_inv (tr : ToolUsageTracker)
    (serialized : List (String × String))
    (h : sumValues tr.usage_count = tr.tool_sequences.length) :
    sumValues (onToolStart tr serialized).usage_count =
      (onToolStart tr serialized).tool_sequences.length := by
  cases hs : (tr.usage_count.lookup (resolvedName serialized)).isSome with
  | true =>
    rw [onToolStart_accepted tr serialized hs]
    simp [sumValues_incr _ _ hs, h]
  | false =>
    rw [onToolStart_rejected tr serialized hs]; exact h

theorem foldl_keys (events : List (List (String × String))) :
    ∀ tr : ToolUsageTracker,
      (events.foldl onToolStart tr).usage_count.map Prod.fst =
        tr.usage_count.map Prod.fst := by
  induction events with
  | nil => intro tr; rfl
  | cons e rest ih =>
    intro tr
    simp only [List.foldl_cons]
    rw [ih, onToolStart_keys]

theorem foldl_inv (events : List (List (String × String))) :
    ∀ tr : ToolUsageTracker,
      sumValues tr.usage_count = tr.tool_sequences.length →
      sumValues (events.foldl onToolStart tr).usage_count =
        (events.foldl onToolStart tr).tool_sequences.length := by
  induction events with
  | nil => intro tr h; exact h
  | cons e rest ih =>
    intro tr h
    simp only [List.foldl_cons]
    exact ih _ (onToolStart_inv tr e h)

theorem foldl_len (events : List (List (String × String))) :
    ∀ tr : ToolUsageTracker,
      (∀ e ∈ events, resolvedName e ∈ tr.usage_count.map Prod.fst) →
      (events.foldl onToolStart tr).tool_sequences.length =
        tr.tool_sequences.length + events.length := by
  induction events with
  | nil => intro tr _; simp
  | cons e rest ih =>
    intro tr h
    have he : (tr.usage_count.lookup (resolvedName e)).isSome = true :=
      (lookup_isSome_iff _ _).mpr (h e (by simp))
    have hrest : ∀ e2 ∈ rest, resolvedName e2 ∈
        (onToolStart tr e).usage_count.map Prod.fst := by
      intro e2 he2
      rw [onToolStart_keys]
      exact h e2 (by simp [he2])
    simp only [List.foldl_cons]
    rw [ih _ hrest, onToolStart_accepted tr e he]
    simp
    omega

/-! Characterization of the Python max on line 121. -/

/-- The largest count appearing in the map (0 for the empty map). -/
def maxVal (m : CountMap) : Nat := (m.map Prod.snd).foldr Nat.max 0

theorem maxVal_cons (x : String × Nat) (xs : CountMap) :
    maxVal (x :: xs) = Nat.max x.2 (maxVal xs) := by
  simp [maxVal]

theorem maxVal_attained (xs : CountMap) :
    maxVal xs = 0 ∨ ∃ y ∈ xs, y.2 = maxVal xs := by
  induction xs with
  | nil => left; rfl
  | cons x rest ih =>
    rw [maxVal_cons]
    rcases Nat.le_total (maxVal rest) x.2 with hle | hle
    · right
      exact ⟨x, by simp, (Nat.max_eq_left hle).symm⟩
    · rcases ih with h0 | ⟨y, hy, hv⟩
      · rcases Nat.eq_zero_or_pos x.2 with hx0 | hxpos
        · left
          have hM : Nat.max x.2 (maxVal rest) = maxVal rest := Nat.max_eq_right hle
          rw [hM, h0]
        · right
          have hle2 : maxVal rest ≤ x.2 := by omega
          exact ⟨x, by simp, (Nat.max_eq_left hle2).symm⟩
      · right
        refine ⟨y, by simp [hy], ?_⟩
        have hM : Nat.max x.2 (maxVal rest) = maxVal rest := Nat.max_eq_right hle
        rw [hM, hv]

theorem pyMax_foldl_char (xs : CountMap) :
    ∀ b : String × Nat,
      xs.foldl (fun best y => if best.2 < y.2 then y else best) b =
        if maxVal xs ≤ b.2 then b
        else (xs.find? (fun y => y.2 == maxVal xs)).getD b := by
  induction xs with
  | nil =>
    intro b
    simp [maxVal]
  | cons x rest ih =>
    intro b
    rw [List.foldl_cons, maxVal_cons]
    by_cases hbx : b.2 < x.2
    · simp only [if_pos hbx]
      rw [ih x]
      by_cases hrx : maxVal rest ≤ x.2
      · rw [if_pos hrx]
        have hM : Nat.max x.2 (maxVal rest) = x.2 := Nat.max_eq_left hrx
        rw [hM]
        have hnb : ¬ x.2 ≤ b.2 := by omega
        rw [if_neg hnb, List.find?_cons]
        have hself : (x.2 == x.2) = true := by simp
        simp [hself]
      · rw [if_neg hrx]
        have hM : Nat.max x.2 (maxVal rest) = maxVal rest :=
          Nat.max_eq_right (by omega)
        rw [hM]
        have hnb : ¬ maxVal rest ≤ b.2 := by omega
        rw [if_neg hnb, List.find?_cons]
        have hxne : (x.2 == maxVal rest) = false := by
          simp only [beq_eq_false_iff_ne]
          omega
        simp only [hxne]
        rcases maxVal_attained rest with h0 | ⟨y, hy, hv⟩
        · omega
        · have hsome : (rest.find? (fun y => y.2 == maxVal rest)).isSome = true := by
            rw [List.find?_isSome]
            exact ⟨y, hy, by simp [hv]⟩
          obtain ⟨z, hz⟩ := Option.isSome_iff_exists.mp hsome
          rw [hz]
          rfl
    · simp only [if_neg hbx]
      rw [ih b]
      by_cases hrb : maxVal rest ≤ b.2
      · rw [if_pos hrb]
        have hM : Nat.max x.2 (maxVal rest) ≤ b.2 := Nat.max_le.mpr ⟨by omega, hrb⟩
        rw [if_pos hM]
      · rw [if_neg hrb]
        have hM : Nat.max x.2 (maxVal rest) = maxVal rest :=
          Nat.max_eq_right (by omega)
        rw [hM]
        rw [if_neg hrb, List.find?_cons]
        have hxne : (x.2 == maxVal rest) = false := by
          simp only [beq_eq_false_iff_ne]
          omega
        simp only [hxne]

/-- Line 121 picks the first entry, in dict insertion order, whose count
attains the maximum count. -/
theorem pyMaxByVal_eq_find (m : CountMap) :
    pyMaxByVal m = m.find? (fun y => y.2 == maxVal m) := by
  cases m with
  | nil => rfl
  | cons x rest =>
    rw [pyMaxByVal, pyMax_foldl_char rest x, maxVal_cons, List.find?_cons]
    by_cases hrx : maxVal rest ≤ x.2
    · rw [if_pos hrx]
      have hM : Nat.max x.2 (maxVal rest) = x.2 := Nat.max_eq_left hrx
      rw [hM]
      have hself : (x.2 == x.2) = true := by simp
      simp [hself]
    · rw [if_neg hrx]
      have hM : Nat.max x.2 (maxVal rest) = maxVal rest :=
        Nat.max_eq_right (by omega)
      rw [hM]
      have hxne : (x.2 == maxVal rest) = false := by
        simp only [beq_eq_false_iff_ne]
        omega
      simp only [hxne]
      rcases maxVal_attained rest with h0 | ⟨y, hy, hv⟩
      · omega
      · have hsome : (rest.find? (fun y => y.2 == maxVal rest)).isSome = true := by
          rw [List.find?_isSome]
          exact ⟨y, hy, by simp [hv]⟩
        obtain ⟨z, hz⟩ := Option.isSome_iff_exists.mp hsome
        rw [hz]
        rfl

/-! String lemmas: Python substring containment and distinctness of the
interpolated spell strings. -/

theorem strInAux_iff (needle hay : List Char) :
    strInAux needle hay = true ↔ needle <:+: hay := by
  induction hay with
  | nil => simp [strInAux, List.isEmpty_iff, List.infix_nil]
  | cons c rest ih =>
    simp [strInAux, List.isPrefixOf_iff_prefix, ih, List.infix_cons_iff,
      Bool.or_eq_true]

theorem pyIn_iff (sub s : String) :
    pyIn sub s = true ↔ sub.data <:+: s.data := strInAux_iff _ _

/-- A string is a Python substring of any string that interpolates it. -/
theorem pyIn_sandwich (a q b : String) : pyIn q (a ++ q ++ b) = true := by
  rw [pyIn_iff, String.data_append, String.data_append]
  exact List.infix_append a.data q.data b.data

theorem string_head_append (a x : String) (c : Char)
    (ha : a.data.head? = some c) : (a ++ x).data.head? = some c := by
  rw [String.data_append]
  cases ha2 : a.data with
  | nil => rw [ha2] at ha; cases ha
  | cons e es =>
    rw [ha2] at ha
    simpa using ha

theorem string_ne_of_head_ne {s t : String}
    (h : s.data.head? ≠ t.data.head?) : s ≠ t := by
  intro he
  exact h (by rw [he])

theorem spellA_head (p : String) : (spellA p).data.head? = some 'T' := by
  unfold spellA
  exact string_head_append _ _ _ (by decide)

theorem spellB_head (p : String) : (spellB p).data.head? = some 'C' := by
  unfold spellB
  exact string_head_append _ _ _ (by decide)

theorem spellC_head (p : String) : (spellC p).data.head? = some 'P' := by
  unfold spellC
  exact string_head_append _ _ _ (by decide)

theorem spellD_head (p : String) : (spellD p).data.head? = some 'G' := by
  unfold spellD
  exact string_head_append _ _ _ (string_head_append _ _ _ (by decide))

/-- The four interpolated spell strings are pairwise distinct for every
problem: they start with distinct characters. -/
theorem spells_nodup (p : String) : (spells p).Nodup := by
  have hA := spellA_head p
  have hB := spellB_head p
  have hC := spellC_head p
  have hD := spellD_head p
  have hAB : spellA p ≠ spellB p := string_ne_of_head_ne (by rw [hA, hB]; decide)
  have hAC : spellA p ≠ spellC p := string_ne_of_head_ne (by rw [hA, hC]; decide)
  have hAD : spellA p ≠ spellD p := string_ne_of_head_ne (by rw [hA, hD]; decide)
  have hBC : spellB p ≠ spellC p := string_ne_of_head_ne (by rw [hB, hC]; decide)
  have hBD : spellB p ≠ spellD p := string_ne_of_head_ne (by rw [hB, hD]; decide)
  have hCD : spellC p ≠ spellD p := string_ne_of_head_ne (by rw [hC, hD]; decide)
  simp [spells, List.nodup_cons, List.mem_cons, hAB, hAC, hAD, hBC, hBD, hCD]

/-! Further helper lemmas used by the claim theorems. -/

theorem resolvedName_ev (n : String) : resolvedName (ev n) = n := by
  simp [resolvedName, ev, List.lookup]

theorem sumValues_init (names : List String) :
    sumValues ((ToolUsageTracker.init names).usage_count) = 0 := by
  induction names with
  | nil => rfl
  | cons n rest ih =>
    simp [ToolUsageTracker.init, sumValues] at ih ⊢
    exact ih

theorem keys_init (names : List String) :
    (ToolUsageTracker.init names).usage_count.map Prod.fst = names := by
  simp [ToolUsageTracker.init, Function.comp_def]

theorem maxVal_zeros (names : List String) :
    maxVal (names.map (fun n => (n, 0))) = 0 := by
  induction names with
  | nil => rfl
  | cons n rest ih =>
    rw [List.map_cons, maxVal_cons, ih]
    simp

theorem pyLoopFirst_eq_none (m : List (String × String)) (q : String)
    (h : ∀ kv ∈ m, pyIn kv.1 q = false) : pyLoopFirst m q = none := by
  induction m with
  | nil => rfl
  | cons p rest ih =>
    obtain ⟨k, v⟩ := p
    have hk : pyIn k q = false := h (k, v) (by simp)
    simp only [pyLoopFirst, hk]
    simp only [Bool.false_eq_true, if_false]
    exact ih (fun kv hkv => h kv (by simp [hkv]))

theorem pyLoopFirst_first (l₁ l₂ : List (String × String)) (k v : String)
    (q : String) (h1 : ∀ kv ∈ l₁, pyIn kv.1 q = false)
    (hk : pyIn k q = true) :
    pyLoopFirst (l₁ ++ (k, v) :: l₂) q = some v := by
  induction l₁ with
  | nil => simp [pyLoopFirst, hk]
  | cons p rest ih =>
    obtain ⟨a, b⟩ := p
    have ha : pyIn a q = false := h1 (a, b) (by simp)
    simp only [List.cons_append, pyLoopFirst, ha]
    simp only [Bool.false_eq_true, if_false]
    exact ih (fun kv hkv => h1 kv (by simp [hkv]))

/-! The claims. -/

/-- Claim C1: after any sequence of on_tool_start calls following
construction over a duplicate-free registry, the sum of usage_count values
equals the length of tool_sequences; the keys of usage_count are exactly
the registered tool names fixed at construction; and when every event's
resolved tool name is registered, both the sequence length and the count
sum equal the number of events. -/
theorem C1_tracker_invariant (names : List String)
    (events : List (List (String × String))) (hnd : names.Nodup) :
    sumValues (runEvents names events).usage_count =
      (runEvents names events).tool_sequences.length
    ∧ (runEvents names events).usage_count.map Prod.fst = names
    ∧ ((∀ e ∈ events, resolvedName e ∈ names) →
        (runEvents names events).tool_sequences.length = events.length
        ∧ sumValues (runEvents names events).usage_count = events.length) := by
  have hsum : sumValues (runEvents names events).usage_count =
      (runEvents names events).tool_sequences.length :=
    foldl_inv events _ (by rw [sumValues_init]; rfl)
  have hkeys : (runEvents names events).usage_count.map Prod.fst = names := by
    rw [runEvents, foldl_keys, keys_init]
  refine ⟨hsum, hkeys, ?_⟩
  intro hall
  have hall2 : ∀ e ∈ events,
      resolvedName e ∈ (ToolUsageTracker.init names).usage_count.map Prod.fst := by
    intro e he
    rw [keys_init]
    exact hall e he
  have hlen := foldl_len events (ToolUsageTracker.init names) hall2
  rw [runEvents]
  constructor
  · rw [hlen]
    simp [ToolUsageTracker.init]
  · rw [runEvents] at hsum
    rw [hsum, hlen]
    simp [ToolUsageTracker.init]

theorem C1_tracker_invariant_witness :
    (["a", "b"] : List String).Nodup
    ∧ (sumValues (runEvents ["a", "b"] [ev "a", ev "b", ev "a"]).usage_count =
        (runEvents ["a", "b"] [ev "a", ev "b", ev "a"]).tool_sequences.length
      ∧ (runEvents ["a", "b"] [ev "a", ev "b", ev "a"]).usage_count.map Prod.fst
          = ["a", "b"]
      ∧ ((∀ e ∈ [ev "a", ev "b", ev "a"], resolvedName e ∈ ["a", "b"]) →
          (runEvents ["a", "b"] [ev "a", ev "b", ev "a"]).tool_sequences.length = 3
          ∧ sumValues (runEvents ["a", "b"] [ev "a", ev "b", ev "a"]).usage_count
              = 3)) :=
  ⟨by decide, C1_tracker_invariant ["a", "b"] [ev "a", ev "b", ev "a"] (by decide)⟩

/-- Claim C2: for every tracker state and every event whose tool name is a
registered key, on_tool_start increments exactly that tool's count by one
and appends the name to the end of the sequence; and processing
["a","b","a","c","a"] over the registry ["a","b","c"] yields counts
a 3, b 1, c 1, most_used "a", the same sequence, and total 5. -/
theorem C2_on_tool_start_registered (tr : ToolUsageTracker) (name : String)
    (h : (tr.usage_count.lookup name).isSome = true) :
    (onToolStart tr (ev name)).tool_sequences = tr.tool_sequences ++ [name]
    ∧ (onToolStart tr (ev name)).usage_count.lookup name
        = (tr.usage_count.lookup name).map (· + 1)
    ∧ (∀ k, k ≠ name →
        (onToolStart tr (ev name)).usage_count.lookup k = tr.usage_count.lookup k)
    ∧ get_statistics (runEvents ["a", "b", "c"]
          [ev "a", ev "b", ev "a", ev "c", ev "a"])
        = ⟨5, SnapField.trackerRef, some "a", SnapField.trackerRef⟩
    ∧ (runEvents ["a", "b", "c"]
          [ev "a", ev "b", ev "a", ev "c", ev "a"]).usage_count
        = [("a", 3), ("b", 1), ("c", 1)]
    ∧ (runEvents ["a", "b", "c"]
          [ev "a", ev "b", ev "a", ev "c", ev "a"]).tool_sequences
        = ["a", "b", "a", "c", "a"] := by
  have hacc := onToolStart_accepted tr (ev name) (by rw [resolvedName_ev]; exact h)
  rw [resolvedName_ev] at hacc
  refine ⟨?_, ?_, ?_, by decide, by decide, by decide⟩
  · rw [hacc]
  · rw [hacc]
    exact lookup_incr_self _ _
  · intro k hk
    rw [hacc]
    exact lookup_incr_ne _ _ _ hk

theorem C2_on_tool_start_registered_witness :
    ((ToolUsageTracker.init ["a", "b"]).usage_count.lookup "a").isSome = true
    ∧ ((onToolStart (ToolUsageTracker.init ["a", "b"]) (ev "a")).tool_sequences
        = (ToolUsageTracker.init ["a", "b"]).tool_sequences ++ ["a"]
      ∧ (onToolStart (ToolUsageTracker.init ["a", "b"]) (ev "a")).usage_count.lookup "a"
          = ((ToolUsageTracker.init ["a", "b"]).usage_count.lookup "a").map (· + 1)
      ∧ (∀ k, k ≠ "a" →
          (onToolStart (ToolUsageTracker.init ["a", "b"]) (ev "a")).usage_count.lookup k
            = (ToolUsageTracker.init ["a", "b"]).usage_count.lookup k)
      ∧ get_statistics (runEvents ["a", "b", "c"]
            [ev "a", ev "b", ev "a", ev "c", ev "a"])
          = ⟨5, SnapField.trackerRef, some "a", SnapField.trackerRef⟩
      ∧ (runEvents ["a", "b", "c"]
            [ev "a", ev "b", ev "a", ev "c", ev "a"]).usage_count
          = [("a", 3), ("b", 1), ("c", 1)]
      ∧ (runEvents ["a", "b", "c"]
            [ev "a", ev "b", ev "a", ev "c", ev "a"]).tool_sequences
          = ["a", "b", "a", "c", "a"]) :=
  ⟨by decide,
   C2_on_tool_start_registered (ToolUsageTracker.init ["a", "b"]) "a" (by decide)⟩

/-- Claim C3: an on_tool_start event whose resolved tool name is not a
registered key leaves the tracker (usage_count and tool_sequences) exactly
as it was; the handler is a total function, so no error is raised. -/
theorem C3_unregistered_ignored (tr : ToolUsageTracker)
    (serialized : List (String × String))
    (h : resolvedName serialized ∉ tr.usage_count.map Prod.fst) :
    onToolStart tr serialized = tr := by
  apply onToolStart_rejected
  rw [Bool.eq_false_iff]
  intro hs
  exact h ((lookup_isSome_iff _ _).mp hs)

theorem C3_unregistered_ignored_witness :
    resolvedName (ev "z") ∉
      (ToolUsageTracker.init realToolNames).usage_count.map Prod.fst
    ∧ onToolStart (ToolUsageTracker.init realToolNames) (ev "z")
        = ToolUsageTracker.init realToolNames :=
  ⟨by decide,
   C3_unregistered_ignored (ToolUsageTracker.init realToolNames) (ev "z") (by decide)⟩

/-- Claim C4 counterexample: on the freshly constructed tracker of this
script, whose registry holds four tools, get_statistics reports
most_used = some "consult_demogorgon" (the first registered name), not
None, even though total_tool_calls is 0 and the sequence is empty: line
121 returns None only when usage_count is empty, and here it never is. -/
theorem C4_counterexample :
    (get_statistics (ToolUsageTracker.init realToolNames)).most_used
        = some "consult_demogorgon"
    ∧ ¬ (get_statistics (ToolUsageTracker.init realToolNames)).most_used = none
    ∧ (get_statistics (ToolUsageTracker.init realToolNames)).total_tool_calls = 0
    ∧ (get_statistics (ToolUsageTracker.init realToolNames)).seqRead
        (ToolUsageTracker.init realToolNames) = [] := by
  refine ⟨by decide, by decide, by decide, rfl⟩

/-- Claim C4 as amended: on a freshly constructed tracker, the statistics
query returns total_tool_calls 0, an empty sequence and zero counts, and
most_used is the first registered tool name in registration order (None
exactly when the registry is empty), not None in general. -/
theorem C4_fresh_statistics (names : List String) :
    (get_statistics (ToolUsageTracker.init names)).total_tool_calls = 0
    ∧ (get_statistics (ToolUsageTracker.init names)).seqRead
        (ToolUsageTracker.init names) = []
    ∧ (get_statistics (ToolUsageTracker.init names)).countsRead
        (ToolUsageTracker.init names) = names.map (fun n => (n, 0))
    ∧ (get_statistics (ToolUsageTracker.init names)).most_used = names.head? := by
  refine ⟨sumValues_init names, rfl, rfl, ?_⟩
  cases names with
  | nil => rfl
  | cons n rest =>
    show (pyMaxByVal ((n, 0) :: rest.map (fun n => (n, 0)))).map Prod.fst = some n
    rw [pyMaxByVal, pyMax_foldl_char]
    rw [maxVal_zeros rest]
    simp

/-- Claim C5 (code bug in the source): calling
cast_interdimensional_spell with a creativity_level outside the table,
such as "extreme", hits the unguarded dict indexing on line 48 and raises
KeyError, not the InvalidParameter error the specification mandates; the
failure happens before any selection, and the tool touches no shared
state either way. -/
theorem C5_invalid_level_keyerror :
    cast_interdimensional_spell "the portal is stuck" "extreme"
        (spells "the portal is stuck") = Except.error "KeyError: extreme"
    ∧ creativityTable.lookup "extreme" = none :=
  ⟨rfl, rfl⟩

/-- Claim C6 counterexample: take the statistics snapshot on the fresh
tracker, then process one registered event; reading the snapshot's
tool_counts and tool_sequences entries now shows the updated state rather
than the values at snapshot time, because get_statistics stored the
tracker's own dict and list in the snapshot (lines 120 and 122 copy
nothing). -/
theorem C6_counterexample :
    (get_statistics (ToolUsageTracker.init realToolNames)).countsRead
        (onToolStart (ToolUsageTracker.init realToolNames)
          (ev "check_hawkins_records"))
      ≠ (get_statistics (ToolUsageTracker.init realToolNames)).countsRead
          (ToolUsageTracker.init realToolNames)
    ∧ (get_statistics (ToolUsageTracker.init realToolNames)).seqRead
        (onToolStart (ToolUsageTracker.init realToolNames)
          (ev "check_hawkins_records"))
      ≠ (get_statistics (ToolUsageTracker.init realToolNames)).seqRead
          (ToolUsageTracker.init realToolNames) := by
  refine ⟨by decide, by decide⟩

/-- Claim C6 as amended: get_statistics mutates nothing (it is a pure
function of the tracker state), but the counts mapping and sequence it
returns are the tracker's own objects rather than copies, so one later
on_tool_start call with a registered name does change what a previously
returned snapshot shows. -/
theorem C6_snapshot_aliases (tr : ToolUsageTracker) (name : String)
    (h : (tr.usage_count.lookup name).isSome = true) :
    (get_statistics tr).tool_counts = SnapField.trackerRef
    ∧ (get_statistics tr).tool_sequences = SnapField.trackerRef
    ∧ (get_statistics tr).countsRead (onToolStart tr (ev name))
        ≠ (get_statistics tr).countsRead tr
    ∧ (get_statistics tr).seqRead (onToolStart tr (ev name))
        ≠ (get_statistics tr).seqRead tr := by
  have hacc := onToolStart_accepted tr (ev name) (by rw [resolvedName_ev]; exact h)
  rw [resolvedName_ev] at hacc
  refine ⟨rfl, rfl, ?_, ?_⟩
  · show (onToolStart tr (ev name)).usage_count ≠ tr.usage_count
    rw [hacc]
    intro heq
    simp only at heq
    have hs := sumValues_incr tr.usage_count name h
    rw [heq] at hs
    omega
  · show (onToolStart tr (ev name)).tool_sequences ≠ tr.tool_sequences
    rw [hacc]
    intro heq
    simp only at heq
    have hlen2 := congrArg List.length heq
    simp at hlen2

theorem C6_snapshot_aliases_witness :
    ((ToolUsageTracker.init realToolNames).usage_count.lookup
        "gather_party_wisdom").isSome = true
    ∧ ((get_statistics (ToolUsageTracker.init realToolNames)).tool_counts
          = SnapField.trackerRef
      ∧ (get_statistics (ToolUsageTracker.init realToolNames)).tool_sequences
          = SnapField.trackerRef
      ∧ (get_statistics (ToolUsageTracker.init realToolNames)).countsRead
            (onToolStart (ToolUsageTracker.init realToolNames)
              (ev "gather_party_wisdom"))
          ≠ (get_statistics (ToolUsageTracker.init realToolNames)).countsRead
              (ToolUsageTracker.init realToolNames)
      ∧ (get_statistics (ToolUsageTracker.init realToolNames)).seqRead
            (onToolStart (ToolUsageTracker.init realToolNames)
              (ev "gather_party_wisdom"))
          ≠ (get_statistics (ToolUsageTracker.init realToolNames)).seqRead
              (ToolUsageTracker.init realToolNames)) :=
  ⟨by decide,
   C6_snapshot_aliases (ToolUsageTracker.init realToolNames)
     "gather_party_wisdom" (by decide)⟩

/-- Claim C7: most_used is the first entry of usage_count, in dict
insertion order, whose count attains the maximum count; since the keys of
usage_count are the registered names in registration order, tied maximum
counts resolve to the tied tool registered first; in particular counts
a 2, b 2 give most_used "a". -/
theorem C7_most_used_tie_break (names : List String)
    (events : List (List (String × String))) (hnd : names.Nodup) :
    (get_statistics (runEvents names events)).most_used
      = ((runEvents names events).usage_count.find?
          (fun y => y.2 == maxVal (runEvents names events).usage_count)).map
            Prod.fst
    ∧ (runEvents names events).usage_count.map Prod.fst = names
    ∧ (get_statistics (runEvents ["a", "b"]
          [ev "a", ev "b", ev "a", ev "b"])).most_used = some "a" := by
  refine ⟨?_, ?_, by decide⟩
  · show (pyMaxByVal (runEvents names events).usage_count).map Prod.fst = _
    rw [pyMaxByVal_eq_find]
  · rw [runEvents, foldl_keys, keys_init]

theorem C7_most_used_tie_break_witness :
    (["a", "b"] : List String).Nodup
    ∧ ((get_statistics (runEvents ["a", "b"] [ev "a", ev "b"])).most_used
        = ((runEvents ["a", "b"] [ev "a", ev "b"]).usage_count.find?
            (fun y => y.2 == maxVal (runEvents ["a", "b"]
              [ev "a", ev "b"]).usage_count)).map Prod.fst
      ∧ (runEvents ["a", "b"] [ev "a", ev "b"]).usage_count.map Prod.fst
          = ["a", "b"]
      ∧ (get_statistics (runEvents ["a", "b"]
            [ev "a", ev "b", ev "a", ev "b"])).most_used = some "a") :=
  ⟨by decide, C7_most_used_tie_break ["a", "b"] [ev "a", ev "b"] (by decide)⟩

/-- Claim C8 counterexample: on the query "zzz" no keyword of
gather_party_wisdom matches, and the tool returns its fixed fallback
string, which does not contain "zzz": this keyword tool's fallback does
not echo the input, contrary to the claim that each keyword tool's
fallback does. -/
theorem C8_counterexample :
    gather_party_wisdom "zzz" = partyFallback
    ∧ pyIn "zzz" (gather_party_wisdom "zzz") = false := by
  refine ⟨by decide, by decide⟩

/-- Claim C8 as amended: both keyword tools match the lowered input
against their static keyword table and return the response of the first
matching keyword, and the matching depends on the input only through its
lowercase form (case-insensitive); when no keyword matches,
check_hawkins_records returns a fallback that echoes the input, while
gather_party_wisdom returns a fixed fallback that does not mention the
input. -/
theorem C8_keyword_matching (q : String) :
    (∀ l₁ l₂ k v, hawkinsRecords = l₁ ++ (k, v) :: l₂ →
      (∀ kv ∈ l₁, pyIn kv.1 (pyLower q) = false) →
      pyIn k (pyLower q) = true →
      check_hawkins_records q = v)
    ∧ (∀ l₁ l₂ k v, partyResponses = l₁ ++ (k, v) :: l₂ →
      (∀ kv ∈ l₁, pyIn kv.1 (pyLower q) = false) →
      pyIn k (pyLower q) = true →
      gather_party_wisdom q = v)
    ∧ ((∀ kv ∈ hawkinsRecords, pyIn kv.1 (pyLower q) = false) →
      check_hawkins_records q = hawkinsFallback q
      ∧ pyIn q (check_hawkins_records q) = true)
    ∧ ((∀ kv ∈ partyResponses, pyIn kv.1 (pyLower q) = false) →
      gather_party_wisdom q = partyFallback)
    ∧ (∀ r, pyLower r = pyLower q →
      pyLoopFirst hawkinsRecords (pyLower r)
          = pyLoopFirst hawkinsRecords (pyLower q)
      ∧ pyLoopFirst partyResponses (pyLower r)
          = pyLoopFirst partyResponses (pyLower q)) := by
  refine ⟨?_, ?_, ?_, ?_, ?_⟩
  · intro l₁ l₂ k v hsplit hfirst hk
    rw [check_hawkins_records, hsplit, pyLoopFirst_first l₁ l₂ k v _ hfirst hk]
    rfl
  · intro l₁ l₂ k v hsplit hfirst hk
    rw [gather_party_wisdom, hsplit, pyLoopFirst_first l₁ l₂ k v _ hfirst hk]
    rfl
  · intro hnone
    have h1 : check_hawkins_records q = hawkinsFallback q := by
      rw [check_hawkins_records, pyLoopFirst_eq_none _ _ hnone]
      rfl
    refine ⟨h1, ?_⟩
    rw [h1, hawkinsFallback]
    exact pyIn_sandwich _ _ _
  · intro hnone
    rw [gather_party_wisdom, pyLoopFirst_eq_none _ _ hnone]
    rfl
  · intro r hr
    rw [hr]
    exact ⟨rfl, rfl⟩

theorem C8_keyword_matching_witness :
    hawkinsRecords = [] ++
      ("portal",
       "Records show portals have opened on various dates with no clear pattern.")
        :: hawkinsRecords.tail
    ∧ (∀ kv ∈ ([] : List (String × String)),
        pyIn kv.1 (pyLower "Tell me about the PORTAL") = false)
    ∧ pyIn "portal" (pyLower "Tell me about the PORTAL") = true
    ∧ check_hawkins_records "Tell me about the PORTAL"
        = "Records show portals have opened on various dates with no clear pattern." :=
  ⟨rfl, by simp, by decide,
   (C8_keyword_matching "Tell me about the PORTAL").1 [] hawkinsRecords.tail
     "portal" _ rfl (by simp) (by decide)⟩

/-- Claim C9: each recognized creativity level maps through the table to
a multiplier 1, 2 or 3; for any permutation the random source supplies,
the selection random.sample makes has exactly multiplier elements, they
are pairwise distinct, they all come from the fixed candidate list, and
that list has 4 elements, at least the maximum multiplier 3. -/
theorem C9_sample_distinct (problem level : String) (m : Nat)
    (hm : creativityTable.lookup level = some m)
    (perm : List String) (hp : perm.Perm (spells problem)) :
    castSelected problem level perm
      = some (randomSample perm (min m (spells problem).length))
    ∧ 1 ≤ m ∧ m ≤ 3
    ∧ (spells problem).length = 4
    ∧ (randomSample perm (min m (spells problem).length)).length = m
    ∧ (randomSample perm (min m (spells problem).length)).Nodup
    ∧ (∀ s ∈ randomSample perm (min m (spells problem).length),
        s ∈ spells problem)
    ∧ cast_interdimensional_spell problem level perm
      = Except.ok (String.intercalate "\n"
          (randomSample perm (min m (spells problem).length))) := by
  have hb : 1 ≤ m ∧ m ≤ 3 := by
    cases h1 : (level == "low") with
    | true =>
      simp [creativityTable, List.lookup, h1] at hm
      omega
    | false =>
      cases h2 : (level == "medium") with
      | true =>
        simp [creativityTable, List.lookup, h1, h2] at hm
        omega
      | false =>
        cases h3 : (level == "high") with
        | true =>
          simp [creativityTable, List.lookup, h1, h2, h3] at hm
          omega
        | false =>
          simp [creativityTable, List.lookup, h1, h2, h3] at hm
  have hlen4 : (spells problem).length = 4 := by simp [spells]
  have hpl : perm.length = 4 := by rw [hp.length_eq, hlen4]
  have hnodup : perm.Nodup := hp.nodup_iff.mpr (spells_nodup problem)
  have hslen : (randomSample perm (min m (spells problem).length)).length = m := by
    rw [randomSample, List.length_take, hlen4, hpl]
    omega
  refine ⟨by simp [castSelected, hm], hb.1, hb.2, hlen4, hslen, ?_, ?_, ?_⟩
  · exact (List.take_sublist _ _).nodup hnodup
  · intro s hs
    exact hp.subset (List.take_subset _ _ hs)
  · simp [cast_interdimensional_spell, hm]

theorem C9_sample_distinct_witness :
    creativityTable.lookup "high" = some 3
    ∧ (spells "why").Perm (spells "why")
    ∧ (randomSample (spells "why") (min 3 (spells "why").length)).length = 3
    ∧ (randomSample (spells "why") (min 3 (spells "why").length)).Nodup := by
  have h := C9_sample_distinct "why" "high" 3 (by decide) (spells "why")
    (List.Perm.refl _)
  exact ⟨by decide, List.Perm.refl _, h.2.2.2.2.1, h.2.2.2.2.2.1⟩

/-- Claim C10: a payload with no "name" key resolves through
serialized.get to the sentinel "unknown"; when "unknown" is not a
registered key of the tracker, which holds for this script's registry,
on_tool_start returns the state unchanged, and the handler is total so no
exception is raised. -/
theorem C10_missing_name_sentinel (tr : ToolUsageTracker)
    (serialized : List (String × String))
    (h1 : serialized.lookup "name" = none)
    (h2 : "unknown" ∉ tr.usage_count.map Prod.fst) :
    resolvedName serialized = "unknown"
    ∧ onToolStart tr serialized = tr
    ∧ "unknown" ∉ realToolNames := by
  have hres : resolvedName serialized = "unknown" := by
    simp [resolvedName, h1]
  refine ⟨hres, ?_, by decide⟩
  apply onToolStart_rejected
  rw [hres, Bool.eq_false_iff]
  intro hs
  exact h2 ((lookup_isSome_iff _ _).mp hs)

theorem C10_missing_name_sentinel_witness :
    ([("input", "portal?")] : List (String × String)).lookup "name" = none
    ∧ "unknown" ∉
        (ToolUsageTracker.init realToolNames).usage_count.map Prod.fst
    ∧ (resolvedName [("input", "portal?")] = "unknown"
      ∧ onToolStart (ToolUsageTracker.init realToolNames) [("input", "portal?")]
          = ToolUsageTracker.init realToolNames
      ∧ "unknown" ∉ realToolNames) :=
  ⟨by decide, by decide,
   C10_missing_name_sentinel (ToolUsageTracker.init realToolNames)
     [("input", "portal?")] (by decide) (by decide)⟩

end NormalObjects
